import Mathlib

/-!
Shallow embedding of `src/lib.rs` of the mkaudio repository.

The Rust code is modelled as follows:
* raw bytes (`u8`) are `ℕ` values kept below 256 by explicit `% 256`;
* `u32` values are `ℕ` with explicit `% 2^32` where the code can wrap;
* `i32` values are `ℤ` with explicit two's-complement reduction `% 2^32`
  and saturation where Rust `as i32` casts saturate;
* `f64` sample values are modelled as exact rationals `ℚ` (every concrete
  value used in the theorems below is exactly representable in `f64` and no
  rounding occurs at those inputs);
* the heap region behind `data : *mut u8` is a `List ℕ`; dereferencing a
  pointer outside the allocation (undefined behaviour) and runtime panics
  (remainder/division by zero, `expect` failures) are both modelled by
  returning `none`;
* the byte-stream writer is a `List ℕ` of emitted bytes, the byte-stream
  reader is an explicit input `List ℕ`, and `println!` output is a
  `List String`.
-/

/-- Value-level model of `AudioBuffer` (src/lib.rs lines 1-9): the metadata
fields together with the byte contents of the allocation behind `data`.
The reference counter is modelled separately (see `RcHeap` below), since it
only matters for `clone`/`drop`. -/
structure AudioBufferM where
  channels : ℕ
  bit_depth : ℕ
  buffer_size : ℕ
  data : List ℕ
deriving DecidableEq

/-- `AudioBuffer::init` (lines 13-30): `size = bit_depth / 8 * buffer_size`,
allocation is zero-filled (`alloc_zeroed`). -/
def audioBufferInit (channels bit_depth buffer_size : ℕ) : AudioBufferM :=
  { channels := channels
    bit_depth := bit_depth
    buffer_size := buffer_size
    data := List.replicate (bit_depth / 8 * buffer_size) 0 }

/-- `AudioBuffer::default` (lines 112-125): all metadata zero, null pointers
(modelled as an empty allocation; it is never dereferenced because every
access first computes `index % buffer_size`, which panics on 0). -/
def audioBufferDefault : AudioBufferM :=
  { channels := 0, bit_depth := 0, buffer_size := 0, data := [] }

/-- The `limit` computed identically in `read` (lines 36-40) and `write`
(lines 59-63): `i8::MAX = 127`, `i16::MAX = 32767`, `2_i32.pow(24) - 1`,
`i32::MAX = 2^31 - 1`, and 0 for any other depth. -/
def limitOf (bit_depth : ℕ) : ℕ :=
  if bit_depth = 8 then 127
  else if bit_depth = 16 then 32767
  else if bit_depth = 24 then 2 ^ 24 - 1
  else if bit_depth = 32 then 2 ^ 31 - 1
  else 0

/-- The byte-gathering loop of `read` (lines 41-45):
`for bit in 0..bit_depth { data = data << 8 | *self.data.offset(real_index + bit_depth - bit) }`.
The recursion variable `k` stands for `bit_depth - bit`, so the loop reads
offsets `ri + bd`, `ri + bd - 1`, ..., `ri + 1` in that order, accumulating
most-significant byte first into a `u32` (shifts wrap at `2^32`).
An out-of-allocation dereference is undefined behaviour: `none`. -/
def readAcc (bytes : List ℕ) (ri : ℕ) : ℕ → ℕ → Option ℕ
  | 0, acc => some acc
  | k + 1, acc =>
    match bytes.get? (ri + (k + 1)) with
    | none => none
    | some byte => readAcc bytes ri k (((acc <<< 8) % 2 ^ 32) ||| byte)

/-- `AudioBuffer::read` (lines 32-47). `index % self.buffer_size` is a
remainder by zero (panic) when `buffer_size = 0`; after the byte loop,
both result branches divide by `limit` (panic when `limit = 0`).
In the negative branch `(data - limit) as i32` reinterprets the `u32`
difference in two's complement and the `i32` division truncates toward
zero (`Int.tdiv`). -/
def audioBufferRead (b : AudioBufferM) (index : ℕ) : Option ℚ :=
  if b.buffer_size = 0 then none
  else
    let bd := b.bit_depth / 8
    let ri := index % b.buffer_size * bd
    let limit := limitOf b.bit_depth
    match readAcc b.data ri bd 0 with
    | none => none
    | some data =>
      if limit = 0 then none
      else if limit < data then
        let diff : ℤ :=
          if (data - limit) % 2 ^ 32 < 2 ^ 31 then ((data - limit) % 2 ^ 32 : ℕ)
          else ((data - limit) % 2 ^ 32 : ℕ) - 2 ^ 32
        some (0 - ((Int.tdiv diff limit : ℤ) : ℚ))
      else some ((data / limit : ℕ) : ℚ)

/-- Rust `as i32` on an `f64`: truncation toward zero, saturating at the
`i32` bounds. -/
def f64AsI32 (x : ℚ) : ℤ :=
  max (-(2 ^ 31)) (min (2 ^ 31 - 1) (if x < 0 then -Rat.floor (-x) else Rat.floor x))

/-- The byte-storing loop of `write` (lines 65-71):
`for bit in 0..bit_depth { *self.data.offset(real_index + bit) += ((restored & (0xFF << bit * 8)) >> (bit * 8)) as u8 }`.
`r32` is the two's-complement `u32` image of `restored`, so the stored byte
for iteration `bit` is `r32 / 2^(8*bit) % 256`; `+=` on `u8` wraps at 256.
`m` counts the remaining iterations, `bit` is the loop counter.
An out-of-allocation store is undefined behaviour: `none`. -/
def writeAcc (r32 ri : ℕ) : ℕ → ℕ → List ℕ → Option (List ℕ)
  | 0, _, bytes => some bytes
  | m + 1, bit, bytes =>
    match bytes.get? (ri + bit) with
    | none => none
    | some old =>
      writeAcc r32 ri m (bit + 1)
        (bytes.set (ri + bit) ((old + r32 / 2 ^ (8 * bit) % 256) % 256))

/-- `AudioBuffer::write` (lines 55-72). `index % self.buffer_size` panics
when `buffer_size = 0`; `restored = (data * limit as f64) as i32` (both
branches of the source `if` are identical). -/
def audioBufferWrite (b : AudioBufferM) (index : ℕ) (value : ℚ) :
    Option AudioBufferM :=
  if b.buffer_size = 0 then none
  else
    let bd := b.bit_depth / 8
    let ri := index % b.buffer_size * bd
    let limit := limitOf b.bit_depth
    let restored : ℤ := f64AsI32 (value * (limit : ℚ))
    let r32 : ℕ := ((restored % 2 ^ 32 : ℤ)).toNat
    match writeAcc r32 ri bd 0 b.data with
    | none => none
    | some bytes => some { b with data := bytes }

/-- `AudioBuffer::real_size` (line 82): `bit_depth / 8 * buffer_size`. -/
def realSize (b : AudioBufferM) : ℕ := b.bit_depth / 8 * b.buffer_size

/-- `AudioBuffer::resize` (lines 83-93): deallocate the old region, set the
new `buffer_size`, allocate a fresh zero-filled region of the recomputed
`real_size`. Prior contents are discarded. -/
def audioBufferResize (b : AudioBufferM) (buffer_size : ℕ) : AudioBufferM :=
  { b with
    buffer_size := buffer_size
    data := List.replicate (b.bit_depth / 8 * buffer_size) 0 }

/-- `AudioBuffer::clear` (line 95): `for index in 0..self.real_size()`
zero the byte at `index`. Writing past the allocation is undefined
behaviour: `none`. -/
def audioBufferClear (b : AudioBufferM) : Option AudioBufferM :=
  if realSize b ≤ b.data.length then
    some { b with data := List.replicate (realSize b) 0 ++ b.data.drop (realSize b) }
  else none

/-- The scalar fields an `AudioBuffer` handle carries together with its two
raw pointers; `dataPtr`/`refPtr` stand for the addresses in `data` and
`ref_count`. Used to state what `Clone::clone` (lines 97-111) copies. -/
structure AudioBufferHandle where
  channels : ℕ
  bit_depth : ℕ
  buffer_size : ℕ
  dataPtr : ℕ
  refPtr : ℕ
deriving DecidableEq

/-- The handle returned by `Clone::clone` (lines 99-110): every field is
copied from `self`, in particular `data` and `ref_count` alias the same
heap cells (no copy of the region). -/
def handleClone (h : AudioBufferHandle) : AudioBufferHandle :=
  { channels := h.channels
    bit_depth := h.bit_depth
    buffer_size := h.buffer_size
    dataPtr := h.dataPtr
    refPtr := h.refPtr }

/-- The heap state shared by all handles of one `AudioBuffer` family:
the value of the `ref_count` cell, whether the data region and the counter
cell are still allocated, and how many times each has been deallocated. -/
structure RcHeap where
  refVal : ℕ
  dataLive : Bool
  refLive : Bool
  dataFrees : ℕ
  refFrees : ℕ
deriving DecidableEq

/-- Heap state right after `AudioBuffer::init` (lines 13-30):
`*ref_count = 1`, both allocations live, nothing freed. -/
def rcInit : RcHeap :=
  { refVal := 1, dataLive := true, refLive := true, dataFrees := 0, refFrees := 0 }

/-- Heap effect of `Clone::clone` (line 101): `*self.ref_count += 1`;
nothing else on the heap is touched. -/
def rcClone (s : RcHeap) : RcHeap :=
  { s with refVal := s.refVal + 1 }

/-- Heap effect of `Drop::drop` (lines 128-143): if `*ref_count == 1`,
deallocate the data region and the counter cell (the counter value itself
is not written); otherwise only `*ref_count -= 1`. -/
def rcDrop (s : RcHeap) : RcHeap :=
  if s.refVal = 1 then
    { s with
      dataLive := false
      refLive := false
      dataFrees := s.dataFrees + 1
      refFrees := s.refFrees + 1 }
  else { s with refVal := s.refVal - 1 }

/-- Model of `AudioDevice` (lines 146-154): the fields the protocol logic
touches. The `BufReader` is modelled by passing the currently buffered
inbound bytes to `deviceRead` explicitly; `written` collects every byte
handed to the `BufWriter`; `printed` collects `println!` output. -/
structure AudioDeviceM where
  sample_rate : ℕ
  in_buffer : AudioBufferM
  out_buffer : AudioBufferM
  written : List ℕ
  printed : List String
deriving DecidableEq

/-- `AudioDevice::set_sample_rate` (lines 175-192). The emitted status byte
is computed in `u8` arithmetic: `((rate / 22050) as u8 - 1) << 2 | 0b01`
resp. `((rate / 24000) as u8 + 31) << 2 | 0b01` (`as u8` truncates to
`% 256`, `<<` on `u8` drops overflowing bits). A rate in neither family
prints an error and changes nothing. -/
def deviceSetSampleRate (d : AudioDeviceM) (sample_rate : ℕ) : AudioDeviceM :=
  if sample_rate % 22050 = 0 then
    { d with
      sample_rate := sample_rate
      written := d.written ++ [((sample_rate / 22050 % 256 - 1) <<< 2) % 256 ||| 1] }
  else if sample_rate % 24000 = 0 then
    { d with
      sample_rate := sample_rate
      written := d.written ++ [(((sample_rate / 24000 % 256 + 31) % 256) <<< 2) % 256 ||| 1] }
  else { d with printed := d.printed ++ ["Invalid sample rate!"] }

/-- The payload-copying loop of `AudioDevice::read` (line 229):
`for index in 1..len { *self.in_buffer.data.offset(index) = buffer[index] }`. -/
def copyPayload (dest buffer : List ℕ) : List ℕ :=
  (List.range' 1 (buffer.length - 1)).foldl
    (fun acc index => acc.set index (buffer.getD index 0)) dest

/-- `AudioDevice::read` (lines 205-230), with the currently buffered
inbound bytes passed as `buffer`. An empty buffer prints and returns.
Otherwise the first byte is split into `state_var = byte & 0b11` and
`state_data = byte >> 2` and the matching metadata field is updated
(none of these updates touches the backing allocation). For longer
frames the bit depth is re-derived from the payload length (`none`
models the divide-by-zero panic when `buffer_size * channels = 0`) and
the payload bytes are copied to backing offsets `1..len-1` (`none`
models the out-of-allocation store). -/
def deviceRead (d : AudioDeviceM) (buffer : List ℕ) : Option AudioDeviceM :=
  let len := buffer.length
  if len = 0 then some { d with printed := d.printed ++ ["Buffer is empty!"] }
  else
    let b0 := buffer.getD 0 0
    let state_var := b0 &&& 3
    let state_data := b0 >>> 2
    let d1 :=
      if state_var = 1 then
        { d with
          sample_rate :=
            if state_data < 32 then (state_data + 1) * 22050
            else (state_data - 31) * 24000 }
      else if state_var = 2 then
        { d with in_buffer := { d.in_buffer with buffer_size := (state_data + 1) * 32 } }
      else if state_var = 3 then
        { d with in_buffer := { d.in_buffer with channels := state_data + 1 } }
      else d
    if len = 1 then some d1
    else
      if d1.in_buffer.buffer_size * d1.in_buffer.channels = 0 then none
      else
        let newDepth := 8 * (len - 1) / (d1.in_buffer.buffer_size * d1.in_buffer.channels)
        let d2 :=
          if d1.in_buffer.bit_depth ≠ newDepth then
            { d1 with
              in_buffer := { d1.in_buffer with bit_depth := newDepth }
              printed := d1.printed ++ ["Bit depth changed!"] }
          else d1
        if len - 1 < d2.in_buffer.data.length then
          some { d2 with
                 in_buffer := { d2.in_buffer with
                                data := copyPayload d2.in_buffer.data buffer } }
        else none

/-- `AudioDevice::write` (lines 231-237): build `data = vec![0; buffer_size + 1]`,
fill `data[index] = *out_buffer.data.offset(index)` for `index in 1..buffer_size+1`
(so the frame is `0` followed by backing bytes at offsets `1..buffer_size`;
`none` models the out-of-allocation read when `buffer_size` is not below the
allocation length), hand the frame to the writer, then `out_buffer.clear()`. -/
def deviceWrite (d : AudioDeviceM) : Option AudioDeviceM :=
  let n := d.out_buffer.buffer_size
  if 0 < n ∧ d.out_buffer.data.length ≤ n then none
  else
    match audioBufferClear d.out_buffer with
    | none => none
    | some cleared =>
      some { d with
             written := d.written ++ (0 :: (d.out_buffer.data.drop 1).take n)
             out_buffer := cleared }

/-! Concrete inputs used by the counterexamples and witnesses below. -/

/-- A handle with arbitrary concrete metadata and pointer values. -/
def handleEx : AudioBufferHandle :=
  { channels := 2, bit_depth := 16, buffer_size := 64, dataPtr := 100, refPtr := 200 }

/-- A 16-bit, 4-sample buffer whose allocation satisfies the length
invariant (8 bytes) and holds some previously written contents. -/
def bufC3 : AudioBufferM :=
  { channels := 1, bit_depth := 16, buffer_size := 4, data := [1, 2, 3, 4, 5, 6, 7, 8] }

/-- A device whose `in_buffer` is `bufC3`. -/
def devC3 : AudioDeviceM :=
  { sample_rate := 44100
    in_buffer := bufC3
    out_buffer := audioBufferDefault
    written := []
    printed := [] }

/-- A device whose `out_buffer` is a 16-bit, 2-sample buffer with known
backing bytes. -/
def devC4 : AudioDeviceM :=
  { sample_rate := 44100
    in_buffer := audioBufferDefault
    out_buffer := { channels := 1, bit_depth := 16, buffer_size := 2, data := [1, 2, 3, 4] }
    written := []
    printed := [] }

/-- A device whose `out_buffer` is a 16-bit, 1-sample buffer. -/
def devC4w : AudioDeviceM :=
  { sample_rate := 44100
    in_buffer := audioBufferDefault
    out_buffer := { channels := 1, bit_depth := 16, buffer_size := 1, data := [7, 8] }
    written := []
    printed := [] }

/-- A device whose `out_buffer` is an 8-bit, 2-sample buffer satisfying
the length invariant (2 bytes = 8/8 * 2). -/
def devC4g : AudioDeviceM :=
  { sample_rate := 44100
    in_buffer := audioBufferDefault
    out_buffer := { channels := 1, bit_depth := 8, buffer_size := 2, data := [9, 10] }
    written := []
    printed := [] }

/-- A freshly initialised device: zero metadata, default buffers, nothing
written or printed yet (`AudioDevice::init`, lines 158-169). -/
def devEmpty : AudioDeviceM :=
  { sample_rate := 0
    in_buffer := audioBufferDefault
    out_buffer := audioBufferDefault
    written := []
    printed := [] }

/-- An 8-bit, 2-sample buffer holding previously written contents. -/
def bufC8 : AudioBufferM :=
  { channels := 1, bit_depth := 8, buffer_size := 2, data := [5, 6] }

/-- An 8-bit, 3-sample zero buffer. -/
def bufC7 : AudioBufferM :=
  { channels := 1, bit_depth := 8, buffer_size := 3, data := [0, 0, 0] }

/-! Helper lemmas shared by several claims. -/

lemma get_replicate_zero (j n : ℕ) (h : j < n) :
    (List.replicate n (0 : ℕ)).get? j = some 0 := by
  induction n generalizing j with
  | zero => omega
  | succ m ih =>
    cases j with
    | zero => rfl
    | succ i => simpa [List.replicate_succ] using ih i (by omega)

/-- Reading `k` bytes of an all-zero allocation yields the raw value 0. -/
lemma readAcc_replicate_zero (k ri n : ℕ) (h : ri + k < n) :
    readAcc (List.replicate n 0) ri k 0 = some 0 := by
  induction k with
  | zero => rfl
  | succ m ih =>
    rw [readAcc, get_replicate_zero (ri + (m + 1)) n (by omega)]
    simpa using ih (by omega)

/-- Core of the amended resize claim: on a freshly resized buffer every
read whose byte window stays inside the new allocation returns 0. -/
lemma read_resize_zero (b : AudioBufferM) (n i : ℕ)
    (hbd : 0 < b.bit_depth / 8) (hl : limitOf b.bit_depth ≠ 0) (hi : i + 1 < n) :
    audioBufferRead (audioBufferResize b n) i = some 0 := by
  have hn : ¬ n = 0 := by omega
  have hmod : i % n = i := Nat.mod_eq_of_lt (by omega)
  have hacc : readAcc (List.replicate (b.bit_depth / 8 * n) 0)
      (i % n * (b.bit_depth / 8)) (b.bit_depth / 8) 0 = some 0 := by
    apply readAcc_replicate_zero
    rw [hmod]
    calc i * (b.bit_depth / 8) + b.bit_depth / 8 = (i + 1) * (b.bit_depth / 8) := by ring
    _ < n * (b.bit_depth / 8) := by exact Nat.mul_lt_mul_of_lt_of_le hi (le_refl _) hbd
    _ = b.bit_depth / 8 * n := by ring
  simp only [audioBufferRead, audioBufferResize, hn, if_false, hacc]
  simp [hl]

lemma rcClone_iterate (n : ℕ) :
    rcClone^[n] rcInit =
      { refVal := n + 1, dataLive := true, refLive := true, dataFrees := 0, refFrees := 0 } := by
  induction n with
  | zero => rfl
  | succ m ih => rw [Function.iterate_succ_apply', ih]; rfl

lemma rcDrop_iterate (n k : ℕ) (h : k ≤ n) :
    rcDrop^[k]
      { refVal := n + 1, dataLive := true, refLive := true, dataFrees := 0, refFrees := 0 } =
      { refVal := n + 1 - k, dataLive := true, refLive := true, dataFrees := 0, refFrees := 0 } := by
  induction k with
  | zero => rfl
  | succ m ih =>
    rw [Function.iterate_succ_apply', ih (by omega)]
    have hne : ¬ n + 1 - m = 1 := by omega
    simp only [rcDrop, hne, if_false]
    congr 1

/-- C1: handles obtained from one `init` by repeated `clone` share one
counter and one data region: `clone` copies the pointers (aliasing, no
data copy) and its only heap effect is `*ref_count += 1`; after `n` clones
the counter is `n + 1`; each of the first `k ≤ n` drops only decrements the
counter and frees nothing, so the remaining handles stay valid; the final
`(n+1)`-th drop deallocates the data region and the counter exactly once
— never twice, and nothing is leaked. -/
theorem c1_refcount_lifecycle (s : RcHeap) (h : AudioBufferHandle) (n k : ℕ)
    (hk : k ≤ n) :
    handleClone h = h
    ∧ rcClone s = { s with refVal := s.refVal + 1 }
    ∧ rcDrop^[k] (rcClone^[n] rcInit) =
        { refVal := n + 1 - k, dataLive := true, refLive := true,
          dataFrees := 0, refFrees := 0 }
    ∧ rcDrop^[n + 1] (rcClone^[n] rcInit) =
        { refVal := 1, dataLive := false, refLive := false,
          dataFrees := 1, refFrees := 1 } := by
  refine ⟨rfl, rfl, ?_, ?_⟩
  · rw [rcClone_iterate, rcDrop_iterate n k hk]
  · rw [rcClone_iterate, Function.iterate_succ_apply', rcDrop_iterate n n (le_refl n)]
    simp [rcDrop]

/-- Witness for `c1_refcount_lifecycle` at `n = 2` clones, `k = 1` drops. -/
theorem c1_refcount_lifecycle_witness :
    1 ≤ 2
    ∧ (handleClone handleEx = handleEx
       ∧ rcClone rcInit = { rcInit with refVal := rcInit.refVal + 1 }
       ∧ rcDrop^[1] (rcClone^[2] rcInit) =
           { refVal := 2 + 1 - 1, dataLive := true, refLive := true,
             dataFrees := 0, refFrees := 0 }
       ∧ rcDrop^[2 + 1] (rcClone^[2] rcInit) =
           { refVal := 1, dataLive := false, refLive := false,
             dataFrees := 1, refFrees := 1 }) :=
  ⟨by decide, c1_refcount_lifecycle rcInit handleEx 2 1 (by decide)⟩

/-- C2 (code bug): at bit depth 8 on a fresh 2-sample buffer, writing the
sample value 1 at index 0 and reading index 0 back yields 0, an error of 1,
far beyond the quantization width 1/127 the claim allows: `read`
reassembles the bytes at offsets `real_index + 1 ..= real_index + bit_depth`
(one past the bytes `write` stored) and divides with integer truncation. -/
theorem c2_roundtrip_failure_eval :
    (audioBufferWrite (audioBufferInit 1 8 2) 0 1).bind (fun x => audioBufferRead x 0) =
      some 0
    ∧ ¬ (|(1 : ℚ) - 0| ≤ 1 / 127) := by
  constructor
  · decide
  · norm_num

/-- C7: `read` and `write` only use the index through `index % buffer_size`,
so any out-of-range index behaves exactly like its remainder; no bounds
error exists on the index. -/
theorem c7_wraparound (b : AudioBufferM) (i : ℕ) (v : ℚ) (_h : 0 < b.buffer_size) :
    audioBufferRead b i = audioBufferRead b (i % b.buffer_size)
    ∧ audioBufferWrite b i v = audioBufferWrite b (i % b.buffer_size) v := by
  have hm : i % b.buffer_size % b.buffer_size = i % b.buffer_size :=
    Nat.mod_mod_of_dvd i dvd_rfl
  constructor
  · simp only [audioBufferRead, hm]
  · simp only [audioBufferWrite, hm]

/-- Witness for `c7_wraparound` at index 7 on a 3-sample buffer. -/
theorem c7_wraparound_witness :
    0 < bufC7.buffer_size
    ∧ (audioBufferRead bufC7 7 = audioBufferRead bufC7 (7 % bufC7.buffer_size)
       ∧ audioBufferWrite bufC7 7 (1 / 2) =
           audioBufferWrite bufC7 (7 % bufC7.buffer_size) (1 / 2)) :=
  ⟨by decide, c7_wraparound bufC7 7 (1 / 2) (by decide)⟩

/-- C9: with `buffer_size = 0` (as on a `Default` buffer) both `read` and
`write` hit the remainder-by-zero `index % buffer_size` and panic; and
`read` with a bit depth outside {8,16,24,32} has `limit = 0` and panics on
the division by `limit`. -/
theorem c9_partiality (b : AudioBufferM) (i : ℕ) (v : ℚ)
    (h : b.buffer_size = 0
      ∨ (b.bit_depth ≠ 8 ∧ b.bit_depth ≠ 16 ∧ b.bit_depth ≠ 24 ∧ b.bit_depth ≠ 32)) :
    audioBufferRead b i = none ∧ (b.buffer_size = 0 → audioBufferWrite b i v = none) := by
  constructor
  · rcases h with h | ⟨h8, h16, h24, h32⟩
    · simp [audioBufferRead, h]
    · have hl : limitOf b.bit_depth = 0 := by simp [limitOf, h8, h16, h24, h32]
      by_cases hbs : b.buffer_size = 0
      · simp [audioBufferRead, hbs]
      · simp only [audioBufferRead, hbs, if_false]
        cases readAcc b.data (i % b.buffer_size * (b.bit_depth / 8)) (b.bit_depth / 8) 0 with
        | none => rfl
        | some data => simp [hl]
  · intro hbs
    simp [audioBufferWrite, hbs]

/-- Witness for `c9_partiality` on the `Default`-constructed buffer. -/
theorem c9_partiality_witness :
    audioBufferDefault.buffer_size = 0
    ∧ audioBufferRead audioBufferDefault 0 = none
    ∧ audioBufferWrite audioBufferDefault 0 0 = none :=
  ⟨rfl, (c9_partiality audioBufferDefault 0 0 (Or.inl rfl)).1,
    (c9_partiality audioBufferDefault 0 0 (Or.inl rfl)).2 rfl⟩

/-- C8 counterexample: resizing the 8-bit buffer `bufC8` to one sample and
reading index 0 dereferences offset 1, one past the new 1-byte allocation
(undefined behaviour, modelled as no result), instead of returning 0.0 as
the claim states for every `i < n`. -/
theorem c8_resize_counterexample :
    audioBufferRead (audioBufferResize bufC8 1) 0 = none
    ∧ (audioBufferResize bufC8 1).buffer_size = 1
    ∧ bufC8.bit_depth = 8 := by
  decide

/-- C8 (amended): after `resize(n)` at a supported bit depth, `read(i)`
returns 0.0 for every index `i` with `i + 1 < n` — prior contents are
discarded and the fresh allocation is zero-filled; at the last index
`i = n - 1` the read window leaves the allocation. -/
theorem c8_resize_amended (b : AudioBufferM) (n i : ℕ)
    (hd : b.bit_depth = 8 ∨ b.bit_depth = 16 ∨ b.bit_depth = 24 ∨ b.bit_depth = 32)
    (hi : i + 1 < n) :
    audioBufferRead (audioBufferResize b n) i = some 0 := by
  apply read_resize_zero
  · rcases hd with h | h | h | h <;> simp [h]
  · rcases hd with h | h | h | h <;> simp [limitOf, h]
  · exact hi

/-- Witness for `c8_resize_amended`: resize `bufC8` to 3 samples, read index 0. -/
theorem c8_resize_amended_witness :
    (bufC8.bit_depth = 8 ∨ bufC8.bit_depth = 16 ∨ bufC8.bit_depth = 24 ∨ bufC8.bit_depth = 32)
    ∧ 0 + 1 < 3
    ∧ audioBufferRead (audioBufferResize bufC8 3) 0 = some 0 :=
  ⟨Or.inl rfl, by decide, c8_resize_amended bufC8 3 0 (Or.inl rfl) (by decide)⟩

/-- A one-byte inbound frame only dispatches on `byte & 0b11` and
`byte >> 2` and returns after the metadata update. -/
lemma deviceRead_single (e : AudioDeviceM) (b0 : ℕ) :
    deviceRead e [b0] =
      some (if b0 &&& 3 = 1 then
              { e with sample_rate :=
                  if b0 >>> 2 < 32 then (b0 >>> 2 + 1) * 22050
                  else (b0 >>> 2 - 31) * 24000 }
            else if b0 &&& 3 = 2 then
              { e with in_buffer := { e.in_buffer with buffer_size := (b0 >>> 2 + 1) * 32 } }
            else if b0 &&& 3 = 3 then
              { e with in_buffer := { e.in_buffer with channels := b0 >>> 2 + 1 } }
            else e) := by
  rfl

/-- Tag and value bits of the byte emitted for a rate `22050 * k`,
`1 ≤ k ≤ 32`. -/
lemma rate22050_byteFacts : ∀ k, k < 33 → 1 ≤ k →
    ((((k % 256 - 1) <<< 2) % 256 ||| 1) &&& 3 = 1
     ∧ (((k % 256 - 1) <<< 2) % 256 ||| 1) >>> 2 = k - 1) := by
  decide

/-- Tag and value bits of the byte emitted for a rate `24000 * k`,
`1 ≤ k ≤ 32`. -/
lemma rate24000_byteFacts : ∀ k, k < 33 → 1 ≤ k →
    (((((k % 256 + 31) % 256) <<< 2) % 256 ||| 1) &&& 3 = 1
     ∧ ((((k % 256 + 31) % 256) <<< 2) % 256 ||| 1) >>> 2 = k + 31) := by
  decide

/-- Setting indices of a list never changes its length, so the payload
copy of `AudioDevice::read` keeps the old allocation size. -/
lemma foldl_set_length (src idxs dest : List ℕ) :
    (idxs.foldl (fun acc index => acc.set index (src.getD index 0)) dest).length =
      dest.length := by
  induction idxs generalizing dest with
  | nil => rfl
  | cons i is ih => rw [List.foldl_cons, ih, List.length_set]

lemma copyPayload_length (dest buffer : List ℕ) :
    (copyPayload dest buffer).length = dest.length := by
  unfold copyPayload
  exact foldl_set_length buffer _ dest

/-- C3 counterexample: `devC3.in_buffer` satisfies the byte-length
invariant (8 bytes = 16/8 * 4), yet delivering the one-byte buffer-size
frame `0b10` (byte 2) makes `AudioDevice::read` set `buffer_size := 32`
without touching the 8-byte allocation, so the invariant
`length = bit_depth/8 * buffer_size` (which would require 64) is broken;
likewise a 5-byte data frame re-derives `bit_depth := 8*4/(4*1) = 8` by
field assignment while the 8-byte allocation stays (8 ≠ 8/8 * 4). -/
theorem c3_invariant_counterexample :
    devC3.in_buffer.data.length =
      devC3.in_buffer.bit_depth / 8 * devC3.in_buffer.buffer_size
    ∧ Option.map
        (fun x => (x.in_buffer.buffer_size, x.in_buffer.data.length,
                   x.in_buffer.bit_depth))
        (deviceRead devC3 [2]) = some (32, 8, 16)
    ∧ ¬ ((8 : ℕ) = 16 / 8 * 32)
    ∧ Option.map
        (fun x => (x.in_buffer.bit_depth, x.in_buffer.data.length))
        (deviceRead devC3 [0, 9, 9, 9, 9]) = some (8, 8)
    ∧ ¬ ((8 : ℕ) = 8 / 8 * 4) := by
  decide

/-- C3 (amended): `init` allocates exactly `bit_depth/8 * buffer_size`
bytes and `resize` reallocates to the recomputed length, but
`AudioDevice::read` applies every metadata mutation by assigning the
field only: a buffer-size frame (tag `10`) and a channel-count frame
(tag `11`) update their field with the device otherwise untouched, and a
data frame whose payload length implies a different bit depth assigns
`bit_depth` and copies the payload in place — the backing allocation is
left as is (its length is preserved), so the byte-length invariant is
not re-derived anywhere in `AudioDevice::read`. -/
theorem c3_invariant_amended (ch bd bs n b0 b1 : ℕ) (b : AudioBufferM)
    (d e f : AudioDeviceM) (buffer : List ℕ)
    (h2 : b0 &&& 3 = 2) (h3 : b1 &&& 3 = 3)
    (h0 : buffer.getD 0 0 &&& 3 = 0) (hlen2 : 2 ≤ buffer.length)
    (hdenom : ¬ f.in_buffer.buffer_size * f.in_buffer.channels = 0)
    (hdep : f.in_buffer.bit_depth ≠
      8 * (buffer.length - 1) / (f.in_buffer.buffer_size * f.in_buffer.channels))
    (hbound : buffer.length - 1 < f.in_buffer.data.length) :
    (audioBufferInit ch bd bs).data.length = bd / 8 * bs
    ∧ (audioBufferResize b n).data.length =
        (audioBufferResize b n).bit_depth / 8 * (audioBufferResize b n).buffer_size
    ∧ deviceRead d [b0] =
        some { d with in_buffer := { d.in_buffer with
                                     buffer_size := (b0 >>> 2 + 1) * 32 } }
    ∧ deviceRead e [b1] =
        some { e with in_buffer := { e.in_buffer with
                                     channels := b1 >>> 2 + 1 } }
    ∧ deviceRead f buffer =
        some { f with
               in_buffer := { f.in_buffer with
                              bit_depth := 8 * (buffer.length - 1) /
                                (f.in_buffer.buffer_size * f.in_buffer.channels)
                              data := copyPayload f.in_buffer.data buffer }
               printed := f.printed ++ ["Bit depth changed!"] }
    ∧ (copyPayload f.in_buffer.data buffer).length = f.in_buffer.data.length := by
  have hlen0 : ¬ buffer.length = 0 := by omega
  have hlen1 : ¬ buffer.length = 1 := by omega
  have hv1 : ¬ (buffer.getD 0 0 &&& 3 = 1) := by rw [h0]; decide
  have hv2 : ¬ (buffer.getD 0 0 &&& 3 = 2) := by rw [h0]; decide
  have hv3 : ¬ (buffer.getD 0 0 &&& 3 = 3) := by rw [h0]; decide
  refine ⟨?_, ?_, ?_, ?_, ?_, ?_⟩
  · simp [audioBufferInit]
  · simp [audioBufferResize]
  · rw [deviceRead_single, if_neg (by omega), if_pos h2]
  · rw [deviceRead_single, if_neg (by omega), if_neg (by omega), if_pos h3]
  · simp only [deviceRead, hlen0, hlen1, hv1, hv2, hv3, hdenom, hdep, hbound,
      if_false, if_true, ite_false, ite_true, not_false_eq_true, ne_eq]
  · exact copyPayload_length f.in_buffer.data buffer

/-- Witness for `c3_invariant_amended`: frame byte 2 (tag `10`, value 0),
frame byte 7 (tag `11`, value 1), and the 5-byte data frame
`[0, 9, 9, 9, 9]` delivered to `devC3`. -/
theorem c3_invariant_amended_witness :
    ((2 : ℕ) &&& 3 = 2 ∧ (7 : ℕ) &&& 3 = 3
     ∧ ([0, 9, 9, 9, 9] : List ℕ).getD 0 0 &&& 3 = 0
     ∧ 2 ≤ ([0, 9, 9, 9, 9] : List ℕ).length
     ∧ ¬ devC3.in_buffer.buffer_size * devC3.in_buffer.channels = 0
     ∧ devC3.in_buffer.bit_depth ≠
         8 * (([0, 9, 9, 9, 9] : List ℕ).length - 1) /
           (devC3.in_buffer.buffer_size * devC3.in_buffer.channels)
     ∧ ([0, 9, 9, 9, 9] : List ℕ).length - 1 < devC3.in_buffer.data.length)
    ∧ ((audioBufferInit 1 16 4).data.length = 16 / 8 * 4
       ∧ (audioBufferResize bufC8 5).data.length =
           (audioBufferResize bufC8 5).bit_depth / 8 *
             (audioBufferResize bufC8 5).buffer_size
       ∧ deviceRead devEmpty [2] =
           some { devEmpty with
                  in_buffer := { devEmpty.in_buffer with
                                 buffer_size := ((2 : ℕ) >>> 2 + 1) * 32 } }
       ∧ deviceRead devEmpty [7] =
           some { devEmpty with
                  in_buffer := { devEmpty.in_buffer with
                                 channels := (7 : ℕ) >>> 2 + 1 } }
       ∧ deviceRead devC3 [0, 9, 9, 9, 9] =
           some { devC3 with
                  in_buffer := { devC3.in_buffer with
                                 bit_depth := 8 * (([0, 9, 9, 9, 9] : List ℕ).length - 1) /
                                   (devC3.in_buffer.buffer_size * devC3.in_buffer.channels)
                                 data := copyPayload devC3.in_buffer.data [0, 9, 9, 9, 9] }
                  printed := devC3.printed ++ ["Bit depth changed!"] }
       ∧ (copyPayload devC3.in_buffer.data [0, 9, 9, 9, 9]).length =
           devC3.in_buffer.data.length) :=
  ⟨⟨by decide, by decide, by decide, by decide, by decide, by decide, by decide⟩,
    c3_invariant_amended 1 16 4 5 2 7 bufC8 devEmpty devEmpty devC3 [0, 9, 9, 9, 9]
      (by decide) (by decide) (by decide) (by decide) (by decide) (by decide) (by decide)⟩

/-- C4 counterexample: with a 16-bit 2-sample out buffer whose backing is
`[1,2,3,4]`, `AudioDevice::write` emits the frame `[0, 2, 3]` — the
payload is the 2 backing bytes at offsets 1 and 2, not the 4 backing bytes
`bit_depth/8 * buffer_size` starting at offset 0 as the claim states. -/
theorem c4_write_frame_counterexample :
    Option.map (fun x => x.written) (deviceWrite devC4) = some [0, 2, 3]
    ∧ [0, 2, 3] ≠ 0 :: devC4.out_buffer.data
    ∧ [0, 2, 3].length ≠
        1 + devC4.out_buffer.bit_depth / 8 * devC4.out_buffer.buffer_size := by
  decide

/-- C4 (amended): when `buffer_size` is below the allocation length (so
for depths 16/24/32 under the length invariant), each `AudioDevice::write`
call emits exactly one frame — the byte 0 (tag `00`) followed by the out
buffer's backing bytes at offsets `1 ..= buffer_size`, i.e. `buffer_size`
payload bytes skipping backing byte 0 — and afterwards clears the whole
backing to zero (consume-once); but for every 8-bit out buffer satisfying
the length invariant (allocation = `buffer_size` bytes) with
`buffer_size > 0`, the payload loop reads backing offset `buffer_size`,
one byte past the allocation — undefined behaviour, no result. -/
theorem c4_write_frame_amended (d g : AudioDeviceM)
    (hlen : d.out_buffer.data.length = realSize d.out_buffer)
    (hbs : d.out_buffer.buffer_size < d.out_buffer.data.length)
    (h8len : g.out_buffer.data.length = realSize g.out_buffer)
    (h8d : g.out_buffer.bit_depth = 8)
    (h8bs : 0 < g.out_buffer.buffer_size) :
    deviceWrite d =
      some { d with
             written := d.written ++
               (0 :: (d.out_buffer.data.drop 1).take d.out_buffer.buffer_size)
             out_buffer := { d.out_buffer with
                             data := List.replicate (realSize d.out_buffer) 0 } }
    ∧ deviceWrite g = none := by
  constructor
  · have hdrop : d.out_buffer.data.drop (realSize d.out_buffer) = [] := by
      rw [← hlen]
      exact List.drop_length _
    simp only [deviceWrite, audioBufferClear]
    rw [if_neg (by omega), if_pos (le_of_eq hlen.symm)]
    simp [hdrop]
  · have hsz : realSize g.out_buffer = g.out_buffer.buffer_size := by
      rw [realSize, h8d]
      norm_num
    have heq : g.out_buffer.data.length = g.out_buffer.buffer_size := h8len.trans hsz
    simp only [deviceWrite]
    rw [if_pos ⟨h8bs, le_of_eq heq⟩]

/-- Witness for `c4_write_frame_amended` on a 16-bit 1-sample out buffer
(frame emitted and cleared) and an invariant-satisfying 8-bit 2-sample
out buffer (out-of-allocation read, no result). -/
theorem c4_write_frame_amended_witness :
    (devC4w.out_buffer.data.length = realSize devC4w.out_buffer
     ∧ devC4w.out_buffer.buffer_size < devC4w.out_buffer.data.length
     ∧ devC4g.out_buffer.data.length = realSize devC4g.out_buffer
     ∧ devC4g.out_buffer.bit_depth = 8
     ∧ 0 < devC4g.out_buffer.buffer_size)
    ∧ (deviceWrite devC4w =
         some { devC4w with
                written := devC4w.written ++
                  (0 :: (devC4w.out_buffer.data.drop 1).take devC4w.out_buffer.buffer_size)
                out_buffer := { devC4w.out_buffer with
                                data := List.replicate (realSize devC4w.out_buffer) 0 } }
       ∧ deviceWrite devC4g = none) :=
  ⟨⟨by decide, by decide, by decide, by decide, by decide⟩,
    c4_write_frame_amended devC4w devC4g
      (by decide) (by decide) (by decide) (by decide) (by decide)⟩

/-- C5: `set_sample_rate(22050)` stores the rate and emits the single byte
1 (tag `01`, value 0); 44100 emits byte 5 (value 1); 24000 emits byte 129
(value 32); a rate in neither family prints the configuration error and
leaves the whole device — rate, buffers, written stream — unchanged. -/
theorem c5_set_sample_rate (d : AudioDeviceM) (r : ℕ)
    (h1 : r % 22050 ≠ 0) (h2 : r % 24000 ≠ 0) :
    deviceSetSampleRate d 22050 =
      { d with sample_rate := 22050, written := d.written ++ [1] }
    ∧ (1 : ℕ) &&& 3 = 1 ∧ (1 : ℕ) >>> 2 = 0
    ∧ deviceSetSampleRate d 44100 =
        { d with sample_rate := 44100, written := d.written ++ [5] }
    ∧ (5 : ℕ) >>> 2 = 1
    ∧ deviceSetSampleRate d 24000 =
        { d with sample_rate := 24000, written := d.written ++ [129] }
    ∧ (129 : ℕ) >>> 2 = 32
    ∧ deviceSetSampleRate d r =
        { d with printed := d.printed ++ ["Invalid sample rate!"] } := by
  refine ⟨rfl, by decide, by decide, rfl, by decide, rfl, by decide, ?_⟩
  unfold deviceSetSampleRate
  rw [if_neg h1, if_neg h2]

/-- Witness for `c5_set_sample_rate` with the invalid rate 100. -/
theorem c5_set_sample_rate_witness :
    ((100 : ℕ) % 22050 ≠ 0 ∧ (100 : ℕ) % 24000 ≠ 0)
    ∧ deviceSetSampleRate devEmpty 100 =
        { devEmpty with printed := devEmpty.printed ++ ["Invalid sample rate!"] } :=
  ⟨⟨by decide, by decide⟩,
    (c5_set_sample_rate devEmpty 100 (by decide) (by decide)).2.2.2.2.2.2.2⟩

/-- C6: for every representable rate — a positive multiple `22050 * k`
with `k ≤ 32`, or a multiple `24000 * k` (not of 22050) with `k ≤ 32` —
feeding the single byte emitted by `set_sample_rate` back into a device's
`read` as a one-byte frame restores exactly that rate. -/
theorem c6_rate_roundtrip (d e : AudioDeviceM) (r : ℕ)
    (h : (r % 22050 = 0 ∧ 0 < r ∧ r / 22050 ≤ 32)
       ∨ (r % 24000 = 0 ∧ r % 22050 ≠ 0 ∧ r / 24000 ≤ 32)) :
    Option.map (fun x => x.sample_rate)
      (deviceRead e ((deviceSetSampleRate d r).written.drop d.written.length)) =
      some r := by
  rcases h with ⟨hm, hpos, hle⟩ | ⟨hm, hnm, hle⟩
  · obtain ⟨k, rfl⟩ : 22050 ∣ r := Nat.dvd_of_mod_eq_zero hm
    have hk1 : 1 ≤ k := by omega
    have hdiv : 22050 * k / 22050 = k := Nat.mul_div_cancel_left _ (by norm_num)
    rw [hdiv] at hle
    obtain ⟨hand, hshift⟩ := rate22050_byteFacts k (by omega) hk1
    have hw : (deviceSetSampleRate d (22050 * k)).written
        = d.written ++ [((k % 256 - 1) <<< 2) % 256 ||| 1] := by
      unfold deviceSetSampleRate
      rw [if_pos (Nat.mul_mod_right 22050 k), hdiv]
    rw [hw, List.drop_left, deviceRead_single, if_pos hand, hshift,
      if_pos (by omega : k - 1 < 32)]
    show some ((k - 1 + 1) * 22050) = some (22050 * k)
    exact congrArg some (by omega)
  · obtain ⟨k, rfl⟩ : 24000 ∣ r := Nat.dvd_of_mod_eq_zero hm
    have hk1 : 1 ≤ k := by
      rcases Nat.eq_zero_or_pos k with h0 | h1
      · subst h0; simp at hnm
      · exact h1
    have hdiv : 24000 * k / 24000 = k := Nat.mul_div_cancel_left _ (by norm_num)
    rw [hdiv] at hle
    obtain ⟨hand, hshift⟩ := rate24000_byteFacts k (by omega) hk1
    have hw : (deviceSetSampleRate d (24000 * k)).written
        = d.written ++ [(((k % 256 + 31) % 256) <<< 2) % 256 ||| 1] := by
      unfold deviceSetSampleRate
      rw [if_neg hnm, if_pos (Nat.mul_mod_right 24000 k), hdiv]
    rw [hw, List.drop_left, deviceRead_single, if_pos hand, hshift,
      if_neg (by omega : ¬ k + 31 < 32)]
    show some ((k + 31 - 31) * 24000) = some (24000 * k)
    exact congrArg some (by omega)

/-- Witness for `c6_rate_roundtrip` at the rate 44100 = 22050 * 2. -/
theorem c6_rate_roundtrip_witness :
    ((44100 : ℕ) % 22050 = 0 ∧ (0 : ℕ) < 44100 ∧ (44100 : ℕ) / 22050 ≤ 32)
    ∧ Option.map (fun x => x.sample_rate)
        (deviceRead devEmpty
          ((deviceSetSampleRate devEmpty 44100).written.drop devEmpty.written.length)) =
        some 44100 :=
  ⟨by decide, c6_rate_roundtrip devEmpty devEmpty 44100 (Or.inl (by decide))⟩
